import Mathlib

/-!
Verification of the packet pipeline and session-state engine of
aprsd-rich-cli-extension (src/aprsd_rich_cli_extension/cmds/chat.py and
listen.py), as a shallow embedding in Lean 4.

The embedding follows the source code: the Textual DOM (tab panes and
scroll views keyed by callsign, packet-display widgets keyed by message
number) is modelled as a list of sessions, each holding an ordered
history of display entries.  Behaviour of the aprsd library and the
Textual framework that the source relies on (widget id uniqueness,
query_one semantics, queue FIFO order) is embedded at the interface
level described in the specification.
-/

/-- The packet kinds the display engine branches on
(isinstance MessagePacket / AckPacket / otherwise, chat.py 588-610). -/
inductive PacketKind where
  | message
  | ack
  | other
deriving DecidableEq

/-- A received packet, with the fields the pipeline reads:
from_call, to_call, the kind branch, and msgNo (ack correlation). -/
structure Packet where
  from_call : String
  to_call : String
  kind : PacketKind
  msgNo : Nat
deriving DecidableEq

/-- chat.py `_get_packet_id`: the widget id derived from the packet's
message number. -/
def get_packet_id (packet : Packet) : String :=
  "_" ++ toString packet.msgNo

/-- A mounted MyPacketDisplay widget: one display entry of a session
history.  `key` is the widget id (`get_packet_id` of the packet) and
`acked` is the Reactive acknowledged flag (initially false). -/
structure DisplayEntry where
  key : String
  packet : Packet
  acked : Bool
deriving DecidableEq

/-- The entry built when a message packet is accepted for display:
MyPacketDisplay(packet, id=_get_packet_id(packet)), acked = False. -/
def mk_entry (packet : Packet) : DisplayEntry :=
  { key := get_packet_id packet, packet := packet, acked := false }

/-- One chat session: the tab pane / scroll view for a correspondent
callsign together with its ordered history of mounted entries
(oldest first, as Textual children are ordered by mount time). -/
structure Session where
  callsign : String
  history : List DisplayEntry
deriving DecidableEq

/-- chat.py `_on_add_chat` normalization: callsign.strip().upper(),
embedded at the character level (drop whitespace from both ends, then
upper-case each character). -/
def normalize_callsign (s : String) : String :=
  String.mk ((((s.data.dropWhile Char.isWhitespace).reverse.dropWhile
    Char.isWhitespace).reverse).map Char.toUpper)

/-- Lookup of the tab / scroll view for a callsign
(`_get_tab_for_callsign` / `_get_scroll_for_callsign`): both widget ids
are derived from the same callsign string, so one lookup models both. -/
def find_session (sessions : List Session) (callsign : String) : Option Session :=
  sessions.find? (fun s => s.callsign == callsign)

/-- Errors raised by the Textual DOM that the embedding tracks:
mounting a widget whose id duplicates a sibling's raises DuplicateIds. -/
inductive DomError where
  | duplicateIds
deriving DecidableEq

/-- chat.py `_on_add_chat`: normalize the callsign; if non-empty, add a
new tab pane and scroll view for it.  Adding a pane whose id already
exists raises DuplicateIds (Textual id uniqueness among siblings). -/
def on_add_chat (sessions : List Session) (callsign : String) :
    Except DomError (List Session) :=
  let c := normalize_callsign callsign
  if c = "" then .ok sessions
  else if (find_session sessions c).isSome then .error .duplicateIds
  else .ok (sessions ++ [{ callsign := c, history := [] }])

/-- Decidable equality for Except results, so that concrete runs can be
settled by evaluation. -/
instance instDecEqExcept {ε α : Type} [DecidableEq ε] [DecidableEq α] :
    DecidableEq (Except ε α) := fun x y =>
  match x, y with
  | .ok a, .ok b =>
    if h : a = b then .isTrue (by subst h; rfl)
    else .isFalse (by intro hc; injection hc; contradiction)
  | .error e1, .error e2 =>
    if h : e1 = e2 then .isTrue (by subst h; rfl)
    else .isFalse (by intro hc; injection hc; contradiction)
  | .ok _, .error _ => .isFalse (by intro hc; injection hc)
  | .error _, .ok _ => .isFalse (by intro hc; injection hc)

/-- chat.py check_packets message path, lines 589-596: mount the new
entry at the end, then if the scroll view now holds more than 10
children remove the first (oldest) one. -/
def append_evict (history : List DisplayEntry) (entry : DisplayEntry) :
    List DisplayEntry :=
  if 10 < (history ++ [entry]).length then (history ++ [entry]).tail
  else history ++ [entry]

/-- Replace the history of the session owning `callsign` (the scroll
view the entry was mounted into). -/
def update_history (sessions : List Session) (callsign : String)
    (h : List DisplayEntry) : List Session :=
  sessions.map (fun s => if s.callsign == callsign then { s with history := h } else s)

/-- Number of display entries, across all sessions, whose widget id
matches `pid` (the candidates of an app-wide query_one). -/
def count_matches (sessions : List Session) (pid : String) : Nat :=
  (sessions.map (fun s => s.history.countP (fun e => e.key == pid))).sum

/-- Set the acknowledged flag (pkt_widget.acked = True). -/
def flip_entry (e : DisplayEntry) : DisplayEntry :=
  { e with acked := true }

/-- Flip every entry whose widget id matches `pid`, in every session. -/
def flip_matching (sessions : List Session) (pid : String) : List Session :=
  sessions.map (fun s =>
    { s with history := s.history.map (fun e => if e.key == pid then flip_entry e else e) })

/-- chat.py check_packets ack path, lines 602-610: query_one over the
whole app for the widget id derived from the ack's msgNo.  query_one
succeeds only when exactly one node matches (NoMatches / TooManyMatches
otherwise); the raised exception is caught and logged, leaving state
unchanged. -/
def ack_packet_step (sessions : List Session) (pid : String) : List Session :=
  if count_matches sessions pid = 1 then flip_matching sessions pid else sessions

/-- State of the chat display engine: the DOM sessions and the
processed (display) queue, front first. -/
structure AppState where
  sessions : List Session
  processed_queue : List Packet
deriving DecidableEq

/-- Outcome of one iteration of the check_packets loop: the new state
with the milliseconds slept, or an escaped DOM exception (only
queue.Empty is caught by the loop's try/except). -/
inductive StepResult where
  | ok (st : AppState) (slept_ms : Nat)
  | crashed (e : DomError)
deriving DecidableEq

/-- chat.py check_packets, after the owning scroll view was found:
branch on the packet kind.  Message: mount a new entry (DuplicateIds if
the session already holds that widget id), evict the oldest past 10.
Ack: app-wide query_one and flag flip.  Other kinds: nothing. -/
def handle_packet (sessions : List Session) (callsign : String)
    (packet : Packet) (rest : List Packet) : StepResult :=
  match find_session sessions callsign with
  | none =>
    StepResult.ok { sessions := sessions, processed_queue := rest ++ [packet] } 200
  | some scroll =>
    match packet.kind with
    | .message =>
      if scroll.history.any (fun e => e.key == get_packet_id packet) then
        .crashed .duplicateIds
      else
        .ok { sessions := update_history sessions callsign
                (append_evict scroll.history (mk_entry packet)),
              processed_queue := rest } 0
    | .ack =>
      .ok { sessions := ack_packet_step sessions (get_packet_id packet),
            processed_queue := rest } 0
    | .other =>
      .ok { sessions := sessions, processed_queue := rest } 0

/-- One iteration of APRSChatApp.check_packets (chat.py 571-620):
dequeue a packet (sleep 100 ms if the queue is empty); compute the
owning callsign (to_call for our own echoed messages, from_call
otherwise); for inbound packets lazily create the tab if none exists
for the raw from_call; look up the scroll view for the owning callsign,
re-enqueueing the packet with a 200 ms sleep when it is missing;
otherwise handle the packet by kind. -/
def check_packets_step (my_callsign : String) (st : AppState) : StepResult :=
  match st.processed_queue with
  | [] => .ok st 100
  | packet :: rest =>
    let callsign := if packet.from_call == my_callsign then packet.to_call
                    else packet.from_call
    if packet.from_call == my_callsign then
      handle_packet st.sessions callsign packet rest
    else if (find_session st.sessions packet.from_call).isSome then
      handle_packet st.sessions callsign packet rest
    else
      match on_add_chat st.sessions packet.from_call with
      | .error e => .crashed e
      | .ok sessions1 => handle_packet sessions1 callsign packet rest

/-- Run `n` iterations of check_packets (stopping early only on an
escaped exception). -/
def run_steps (my_callsign : String) : Nat → AppState → StepResult
  | 0, st => .ok st 0
  | n + 1, st =>
    match check_packets_step my_callsign st with
    | .ok st1 _ => run_steps my_callsign n st1
    | .crashed e => .crashed e

/-- A sample inbound message packet used in concrete runs. -/
def sample_packet (n : Nat) : Packet :=
  { from_call := "KK7ABC", to_call := "MYCALL", kind := .message, msgNo := n }

/-- Twelve sequential inbound messages from the same new correspondent. -/
def twelve_messages : List Packet :=
  (List.range 12).map (fun k => sample_packet (k + 1))

/-- A sample full history of ten entries. -/
def sample_history10 : List DisplayEntry :=
  (List.range 10).map (fun k => mk_entry (sample_packet k))

/-- chat.py check_packets lines 581-584 composed with `_on_add_chat`:
get-or-create of the session for a correspondent — look up the tab for
the raw callsign, and create one (normalizing the callsign) when the
lookup misses. -/
def get_or_create (sessions : List Session) (callsign : String) :
    Except DomError (List Session) :=
  if (find_session sessions callsign).isSome then .ok sessions
  else on_add_chat sessions callsign

/-- Entry-wise description of processing one acknowledgement: every
entry whose widget id matches the ack's correlated id has its
acknowledged flag set to true, and every other entry is unchanged,
session by session and position by position. -/
def ack_flip_spec (pid : String) (olds news : List Session) : Prop :=
  List.Forall₂ (fun s s1 =>
    s1.callsign = s.callsign ∧
    List.Forall₂ (fun e e1 =>
      (e.key = pid → e1 = { e with acked := true }) ∧
      (e.key ≠ pid → e1 = e)) s.history s1.history) olds news

/-- Connection statistics returned by the packet source client
(stats()["transport"], stats()["server_string"]). -/
structure ConnStats where
  transport : String
  server_string : String
deriving DecidableEq

/-- Outcome of one iteration of the connection-monitor loop: either the
loop continues after sleeping, or an uncaught exception escapes the
while loop and the worker dies. -/
inductive MonitorOutcome where
  | continues (slept_ms : Nat)
  | crashed (err : String)
deriving DecidableEq

/-- One iteration of check_connection (listen.py 520-553, chat.py
637-657).  When a client is present, the statistics call runs before
and outside the try/except (listen.py line 525, chat.py line 642), so
an exception raised by stats() propagates out of the while loop.  The
widget-update section runs inside the try/except, whose handler logs
the error and sleeps 1 s before the iteration's final 1 s sleep. -/
def check_connection_iter (has_client : Bool)
    (stats_result : Except String ConnStats)
    (ui_result : Except String Unit) : MonitorOutcome :=
  if has_client then
    match stats_result with
    | .error e => .crashed e
    | .ok _ =>
      match ui_result with
      | .error _ => .continues 2000
      | .ok _ => .continues 1000
  else
    match ui_result with
    | .error _ => .continues 2000
    | .ok _ => .continues 1000

/-- Sample statistics value for concrete evaluations. -/
def sample_stats : ConnStats :=
  { transport := "aprsis", server_string := "noam.aprs2.net:14580" }

/-- Listener filter state: the desired filter string held by the app
(self.filter, listen.py) and the packet source's active filter.
Modelled from the spec: PacketSource setFilter/getFilter live in the
external aprsd client, observed here at the level of the normalized
comma-joined filter string that the monitor compares. -/
structure FilterState where
  active_filter : String
  desired_filter : String
deriving DecidableEq

/-- listen.py filter_changed (459-461): replace the desired filter with
the operator's input. -/
def filter_changed (st : FilterState) (f : String) : FilterState :=
  { st with desired_filter := f }

/-- listen.py check_connection filter reconciliation (527-534): compare
the joined active filter of the client with the desired one; when they
differ, issue a set_filter call with the desired value.  Returns the
new state and whether a filter-update call was issued. -/
def check_connection_filter (st : FilterState) : FilterState × Bool :=
  if st.active_filter == st.desired_filter then (st, false)
  else ({ st with active_filter := st.desired_filter }, true)

/-- Modelled from the spec: the packet classifier loop.  The dequeue
loop and the filter test live in the aprsd base classes
(APRSDFilterThread / APRSDProcessPacketThread, external library, not
under src/); the subclass hooks in src (process_packet, listen.py
134-135, and process_our_message_packet, chat.py 116-118) forward each
accepted packet to the display queue with processed_queue.put.  The
classifier dequeues each inbound packet in order, forwards it when it
passes the filter, and otherwise drops it. -/
def classifier_forward (accepts : Packet → Bool) : List Packet → List Packet
  | [] => []
  | p :: rest =>
    if accepts p then p :: classifier_forward accepts rest
    else classifier_forward accepts rest

/-- An outbound message packet as composed by action_send_message
(core.MessagePacket with from_call, to_call, message_text); msgNo is
empty until prepare assigns one. -/
structure MessagePacketOut where
  from_call : String
  to_call : String
  message_text : String
  msgNo : Option Nat
deriving DecidableEq

/-- Modelled from the spec: Packet.prepare(create_msg_number=True)
(capability of the external aprsd packet model) — assigns the next
unique message number to the packet, once, at composition time. -/
def prepare_msg (next_no : Nat) (p : MessagePacketOut) : MessagePacketOut × Nat :=
  ({ p with msgNo := some next_no }, next_no + 1)

/-- The two queues fed by the interactive surface of APRSChatApp:
the display (processed) queue and the transmit queue. -/
structure ChatQueues where
  processed_queue : List MessagePacketOut
  tx_queue : List MessagePacketOut
deriving DecidableEq

/-- chat.py action_send_message (505-519): build the message packet for
the active callsign, prepare it with a fresh message number, then put
the same packet on the display (processed) queue and on the transmit
queue. -/
def action_send_message (my_callsign active_callsign msg_text : String)
    (next_no : Nat) (q : ChatQueues) : ChatQueues × Nat :=
  let pr := prepare_msg next_no
    { from_call := my_callsign, to_call := active_callsign,
      message_text := msg_text, msgNo := none }
  ({ processed_queue := q.processed_queue ++ [pr.1],
     tx_queue := q.tx_queue ++ [pr.1] }, pr.2)

/-- Concrete message packet from correspondent B with msgNo 5. -/
def w_msg_b5 : Packet :=
  { from_call := "B", to_call := "MYCALL", kind := .message, msgNo := 5 }

/-- Concrete acknowledgement from correspondent B for msgNo 5. -/
def w_ack_b5 : Packet :=
  { from_call := "B", to_call := "MYCALL", kind := .ack, msgNo := 5 }

/-- Concrete acknowledgement from correspondent B for msgNo 99. -/
def w_ack_b99 : Packet :=
  { from_call := "B", to_call := "MYCALL", kind := .ack, msgNo := 99 }

/-- Session for correspondent B holding the displayed message 5. -/
def w_session_b : Session :=
  { callsign := "B", history := [mk_entry w_msg_b5] }

/-- Empty session for correspondent B. -/
def w_session_b_empty : Session :=
  { callsign := "B", history := [] }

/-- Concrete message displayed in session A with msgNo 5 (same message
number as the one correspondent B acknowledges). -/
def ce_msg_a5 : Packet :=
  { from_call := "A", to_call := "MYCALL", kind := .message, msgNo := 5 }

/-- Session for correspondent A holding the displayed message 5. -/
def ce_session_a : Session :=
  { callsign := "A", history := [mk_entry ce_msg_a5] }

/-- Concrete outbound echo packet composed by the operator. -/
def w_out_packet : Packet :=
  { from_call := "MYCALL", to_call := "KK7ABC", kind := .message, msgNo := 7 }

/-- C2: after any append the history length stays within the cap of 10;
on overflow the evicted entry is the oldest (front) one; and feeding 12
sequential inbound messages from one new correspondent through the
check_packets loop leaves exactly the last 10 entries, the oldest 2
evicted. -/
theorem C2_history_cap_eviction :
    (∀ (h : List DisplayEntry) (e : DisplayEntry),
      h.length ≤ 10 → (append_evict h e).length ≤ 10)
    ∧ (∀ (h : List DisplayEntry) (e : DisplayEntry),
      10 ≤ h.length → append_evict h e = h.tail ++ [e])
    ∧ run_steps "MYCALL" 12 { sessions := [], processed_queue := twelve_messages } =
        .ok { sessions := [{ callsign := "KK7ABC",
                             history := (List.range 10).map
                               (fun k => mk_entry (sample_packet (k + 3))) }],
              processed_queue := [] } 0 := by
  refine ⟨?_, ?_, by decide⟩
  · intro h e hlen
    unfold append_evict
    split
    · next hc =>
      simp only [List.length_tail, List.length_append, List.length_cons, List.length_nil] at hc ⊢
      omega
    · next hc =>
      simp only [List.length_append, List.length_cons, List.length_nil] at hc ⊢
      omega
  · intro h e hlen
    cases h with
    | nil => simp at hlen
    | cons a t =>
      simp only [List.length_cons] at hlen
      unfold append_evict
      rw [if_pos]
      · rfl
      · simp only [List.length_append, List.length_cons, List.length_nil]
        omega

/-- Witness for C2: a concrete append within the cap, and a concrete
overflowing append evicting the front entry. -/
theorem C2_history_cap_eviction_witness :
    (append_evict sample_history10 (mk_entry (sample_packet 10))).length ≤ 10
    ∧ append_evict sample_history10 (mk_entry (sample_packet 10)) =
        sample_history10.tail ++ [mk_entry (sample_packet 10)] :=
  ⟨C2_history_cap_eviction.1 sample_history10 (mk_entry (sample_packet 10)) (by decide),
   C2_history_cap_eviction.2.1 sample_history10 (mk_entry (sample_packet 10)) (by decide)⟩

theorem update_history_no_match :
    ∀ (sessions : List Session) (cs : String) (h : List DisplayEntry),
      (∀ s ∈ sessions, (s.callsign == cs) = false) →
      update_history sessions cs h = sessions
  | [], _, _, _ => rfl
  | s :: t, cs, h, hn => by
    have h0 := hn s (List.mem_cons_self s t)
    have ht := update_history_no_match t cs h
      (fun x hx => hn x (List.mem_cons_of_mem s hx))
    simp only [update_history, List.map_cons] at ht ⊢
    rw [if_neg (by simp [h0]), ht]

theorem forall2_map_self {α : Type} (f : α → α) (r : α → α → Prop) :
    ∀ (l : List α), (∀ x ∈ l, r x (f x)) → List.Forall₂ r l (l.map f)
  | [], _ => List.Forall₂.nil
  | a :: t, h =>
    List.Forall₂.cons (h a (List.mem_cons_self a t))
      (forall2_map_self f r t (fun x hx => h x (List.mem_cons_of_mem a hx)))

theorem ack_flip_spec_of_flip_matching (pid : String) (sessions : List Session) :
    ack_flip_spec pid sessions (flip_matching sessions pid) := by
  unfold ack_flip_spec flip_matching
  refine forall2_map_self _ _ sessions (fun s _ => ⟨rfl, ?_⟩)
  refine forall2_map_self _ _ s.history (fun e _ => ⟨?_, ?_⟩)
  · intro hk
    simp [hk, flip_entry]
  · intro hk
    simp [hk]

/-- C4 counterexample: with correspondent id "kk7abc" (not in
normalized form) the first call creates session "KK7ABC", but the
second call's lookup uses the raw id, misses, and attempts a duplicate
creation, which raises DuplicateIds instead of returning the same
session — refuting idempotence for identifiers merely equal after
normalization. -/
theorem C4_get_or_create_counterexample :
    get_or_create [] "kk7abc" =
      .ok [{ callsign := "KK7ABC", history := [] }]
    ∧ get_or_create [{ callsign := "KK7ABC", history := [] }] "kk7abc" =
      .error .duplicateIds := by
  decide

/-- C4 (amended): get-or-create is idempotent for correspondent ids
that are already in normalized form (trimmed, upper-case) and
non-empty: a second call with the same id returns the same sessions
unchanged, and after a successful call a session for the id exists. -/
theorem C4_get_or_create_idempotent (cs : String) (sessions : List Session)
    (hnorm : normalize_callsign cs = cs) (hne : cs ≠ "") :
    Except.bind (get_or_create sessions cs) (fun s1 => get_or_create s1 cs) =
      get_or_create sessions cs
    ∧ ∀ out, get_or_create sessions cs = .ok out →
        (find_session out cs).isSome = true := by
  cases hfind : find_session sessions cs with
  | some s =>
    constructor
    · simp [get_or_create, hfind, Except.bind]
    · intro out hout
      simp [get_or_create, hfind] at hout
      subst hout
      simp [hfind]
  | none =>
    have hadd : on_add_chat sessions cs =
        .ok (sessions ++ [{ callsign := cs, history := [] }]) := by
      simp [on_add_chat, hnorm, hne, hfind]
    have hfind2 : find_session (sessions ++ [{ callsign := cs, history := [] }]) cs =
        some { callsign := cs, history := [] } := by
      unfold find_session at hfind ⊢
      rw [List.find?_append, hfind]
      simp
    constructor
    · simp [get_or_create, hfind, hadd, Except.bind, hfind2]
    · intro out hout
      simp [get_or_create, hfind, hadd] at hout
      subst hout
      simp [hfind2]

/-- Witness for C4 (amended): applied at the normalized id "KK7ABC"
and the empty registry. -/
theorem C4_get_or_create_idempotent_witness :
    Except.bind (get_or_create [] "KK7ABC") (fun s1 => get_or_create s1 "KK7ABC") =
      get_or_create [] "KK7ABC" :=
  (C4_get_or_create_idempotent "KK7ABC" [] (by decide) (by decide)).1

/-- C7: a message packet whose owning scroll view cannot be resolved is
put back onto the display queue (not dropped), the loop sleeps 200 ms,
and processing then continues with the next queued item (the re-queued
packet sits at the back of the FIFO). -/
theorem C7_unresolved_requeue (my_callsign : String) (sessions : List Session)
    (packet : Packet) (rest : List Packet)
    (hkind : packet.kind = .message)
    (hout : (packet.from_call == my_callsign) = true)
    (hnone : find_session sessions packet.to_call = none) :
    check_packets_step my_callsign
      { sessions := sessions, processed_queue := packet :: rest } =
      .ok { sessions := sessions, processed_queue := rest ++ [packet] } 200 := by
  simp [check_packets_step, handle_packet, hout, hnone]

/-- Witness for C7: an operator-composed message echoed to a
correspondent whose tab does not exist yet is re-enqueued behind the
remaining queue item with a 200 ms sleep. -/
theorem C7_unresolved_requeue_witness :
    check_packets_step "MYCALL"
      { sessions := [], processed_queue := [w_out_packet, w_msg_b5] } =
      .ok { sessions := [], processed_queue := [w_msg_b5, w_out_packet] } 200 :=
  C7_unresolved_requeue "MYCALL" [] w_out_packet [w_msg_b5] rfl (by decide) (by decide)

/-- C8: the owning session of a processed packet is to_call when
from_call is the operator's own callsign (outbound echo) and from_call
otherwise; and an inbound message from a correspondent with no session
yet gets one created (lazily) before its entry is displayed in it. -/
theorem C8_owning_session (my_callsign : String) (sessions : List Session)
    (packet : Packet) (rest : List Packet) :
    ((packet.from_call == my_callsign) = true → packet.kind = .message →
      ∀ s, find_session sessions packet.to_call = some s →
        s.history.any (fun e => e.key == get_packet_id packet) = false →
        check_packets_step my_callsign
          { sessions := sessions, processed_queue := packet :: rest } =
          .ok { sessions := update_history sessions packet.to_call
                  (append_evict s.history (mk_entry packet)),
                processed_queue := rest } 0)
    ∧ ((packet.from_call == my_callsign) = false → packet.kind = .message →
      find_session sessions packet.from_call = none →
      normalize_callsign packet.from_call = packet.from_call →
      packet.from_call ≠ "" →
      check_packets_step my_callsign
        { sessions := sessions, processed_queue := packet :: rest } =
        .ok { sessions := sessions ++ [{ callsign := packet.from_call,
                                         history := [mk_entry packet] }],
              processed_queue := rest } 0) := by
  constructor
  · intro hout hkind s hs hdup
    simp [check_packets_step, handle_packet, hout, hs, hkind, hdup]
  · intro hin hkind hnone hnorm hne
    have hn : ∀ s ∈ sessions, (s.callsign == packet.from_call) = false := by
      intro s hs
      have := List.find?_eq_none.mp hnone s hs
      simpa using this
    have hadd : on_add_chat sessions packet.from_call =
        .ok (sessions ++ [{ callsign := packet.from_call, history := [] }]) := by
      simp [on_add_chat, hnorm, hne, hnone]
    have hfind2 : find_session
        (sessions ++ [{ callsign := packet.from_call, history := [] }])
        packet.from_call = some { callsign := packet.from_call, history := [] } := by
      unfold find_session at hnone ⊢
      rw [List.find?_append, hnone]
      simp
    have hupd : update_history
        (sessions ++ [{ callsign := packet.from_call, history := [] }])
        packet.from_call (append_evict [] (mk_entry packet)) =
        sessions ++ [{ callsign := packet.from_call, history := [mk_entry packet] }] := by
      simp only [update_history, List.map_append]
      have h1 := update_history_no_match sessions packet.from_call
        (append_evict [] (mk_entry packet)) hn
      simp only [update_history] at h1
      rw [h1]
      simp [append_evict]
    simp [check_packets_step, handle_packet, hin, hnone, hadd, hfind2, hkind, hupd]

/-- Witness for C8: both branches applied concretely — an outbound echo
lands in the to_call session, and an inbound message from the unseen
correspondent KK7ABC creates its session and displays into it. -/
theorem C8_owning_session_witness :
    check_packets_step "MYCALL"
      { sessions := [{ callsign := "KK7ABC", history := [] }],
        processed_queue := [w_out_packet] } =
      .ok { sessions := update_history [{ callsign := "KK7ABC", history := [] }]
              "KK7ABC" (append_evict [] (mk_entry w_out_packet)),
            processed_queue := [] } 0
    ∧ check_packets_step "MYCALL"
        { sessions := [], processed_queue := [sample_packet 5] } =
        .ok { sessions := [{ callsign := "KK7ABC",
                             history := [mk_entry (sample_packet 5)] }],
              processed_queue := [] } 0 :=
  ⟨(C8_owning_session "MYCALL" [{ callsign := "KK7ABC", history := [] }]
      w_out_packet []).1 (by decide) rfl { callsign := "KK7ABC", history := [] }
      (by decide) (by decide),
   (C8_owning_session "MYCALL" [] (sample_packet 5) []).2 (by decide) rfl
      (by decide) (by decide) (by decide)⟩

/-- C1 counterexample: session A holds the displayed message with
msgNo 5; an acknowledgement arrives from correspondent B (its owning
session is B, since from_call is B and not the operator's callsign),
yet processing it flips the entry in session A — the lookup
(query_one) is app-wide, not local to the owning session, and a session
other than the owning one has its history changed. -/
theorem C1_ack_counterexample :
    check_packets_step "MYCALL"
      { sessions := [ce_session_a, w_session_b_empty],
        processed_queue := [w_ack_b5] } =
      .ok { sessions := [{ callsign := "A",
                           history := [flip_entry (mk_entry ce_msg_a5)] },
                         w_session_b_empty],
            processed_queue := [] } 0
    ∧ w_ack_b5.from_call = "B"
    ∧ ce_session_a.callsign = "A"
    ∧ [{ callsign := "A", history := [flip_entry (mk_entry ce_msg_a5)] }] ≠
        [ce_session_a] := by
  decide

/-- C1 (amended): processing an acknowledgement searches for the entry
keyed by its correlated message number across all sessions (app-wide
query), not just the owning one; when exactly one entry anywhere
matches, that entry's acknowledged flag flips to true and every other
entry (in every session) is unchanged. -/
theorem C1_ack_flip_global (my_callsign : String) (sessions : List Session)
    (packet : Packet) (rest : List Packet)
    (hkind : packet.kind = .ack)
    (hin : (packet.from_call == my_callsign) = false)
    (hs : ∃ s, find_session sessions packet.from_call = some s)
    (h1 : count_matches sessions (get_packet_id packet) = 1) :
    check_packets_step my_callsign
      { sessions := sessions, processed_queue := packet :: rest } =
      .ok { sessions := ack_packet_step sessions (get_packet_id packet),
            processed_queue := rest } 0
    ∧ ack_flip_spec (get_packet_id packet) sessions
        (ack_packet_step sessions (get_packet_id packet)) := by
  obtain ⟨s, hs⟩ := hs
  constructor
  · simp [check_packets_step, handle_packet, hin, hs, hkind]
  · unfold ack_packet_step
    rw [if_pos h1]
    exact ack_flip_spec_of_flip_matching _ _

/-- Witness for C1 (amended): the acknowledgement from B for msgNo 5
flips the unique matching entry (in B's own session here). -/
theorem C1_ack_flip_global_witness :
    check_packets_step "MYCALL"
      { sessions := [w_session_b], processed_queue := [w_ack_b5] } =
      .ok { sessions := ack_packet_step [w_session_b] (get_packet_id w_ack_b5),
            processed_queue := [] } 0
    ∧ ack_flip_spec (get_packet_id w_ack_b5) [w_session_b]
        (ack_packet_step [w_session_b] (get_packet_id w_ack_b5)) :=
  C1_ack_flip_global "MYCALL" [w_session_b] w_ack_b5 [] rfl (by decide)
    ⟨w_session_b, by decide⟩ (by decide)

/-- C6 counterexample: an acknowledgement with msgNo 99 from a
correspondent who has no session yet matches no entry anywhere, but
processing it is not a no-op on session state — a new (empty) session
for B is created by the lazy tab creation that runs before the ack
branch. -/
theorem C6_unmatched_ack_counterexample :
    check_packets_step "MYCALL"
      { sessions := [], processed_queue := [w_ack_b99] } =
      .ok { sessions := [w_session_b_empty], processed_queue := [] } 0
    ∧ ([w_session_b_empty] : List Session) ≠ [] := by
  decide

/-- C6 (amended): an acknowledgement whose correlated message number
matches no display entry in any session, arriving from a correspondent
who already has a session, is silently discarded: the iteration
consumes it from the queue, raises no error, performs no retry, and
leaves the sessions (all histories included) completely unchanged.  If
the correspondent has no session yet, the only state change is the
lazy creation of an empty session for it. -/
theorem C6_unmatched_ack_noop (my_callsign : String) (sessions : List Session)
    (packet : Packet) (rest : List Packet)
    (hkind : packet.kind = .ack)
    (hin : (packet.from_call == my_callsign) = false)
    (hs : ∃ s, find_session sessions packet.from_call = some s)
    (hmiss : count_matches sessions (get_packet_id packet) = 0) :
    check_packets_step my_callsign
      { sessions := sessions, processed_queue := packet :: rest } =
      .ok { sessions := sessions, processed_queue := rest } 0 := by
  obtain ⟨s, hs⟩ := hs
  have hstep : ack_packet_step sessions (get_packet_id packet) = sessions := by
    unfold ack_packet_step
    rw [if_neg (by rw [hmiss]; decide)]
  simp [check_packets_step, handle_packet, hin, hs, hkind, hstep]

/-- Witness for C6 (amended): the unmatched ack for msgNo 99 from B,
whose session exists, leaves the sessions unchanged. -/
theorem C6_unmatched_ack_noop_witness :
    check_packets_step "MYCALL"
      { sessions := [w_session_b], processed_queue := [w_ack_b99] } =
      .ok { sessions := [w_session_b], processed_queue := [] } 0 :=
  C6_unmatched_ack_noop "MYCALL" [w_session_b] w_ack_b99 [] rfl (by decide)
    ⟨w_session_b, by decide⟩ (by decide)

/-- C3: the statistics call of the connection monitor runs outside the
iteration's try/except, so an exception it raises escapes the while
loop and kills the monitor worker — it is not caught, logged and
retried as the claim states; only exceptions from the widget-update
section (after the statistics call) are caught and followed by the
sleep-and-retry cadence. -/
theorem C3_stats_error_escapes :
    check_connection_iter true (.error "stats failure") (.ok ()) =
      .crashed "stats failure"
    ∧ check_connection_iter true (.ok sample_stats) (.error "ui failure") =
      .continues 2000
    ∧ check_connection_iter true (.ok sample_stats) (.ok ()) =
      .continues 1000 := by
  decide

/-- C5: after the operator sets a desired filter X through
filter_changed, one connection-monitor period later the packet source's
active filter equals X; and a filter-update call is issued exactly when
the active filter differed from the desired value. -/
theorem C5_filter_convergence (st : FilterState) (x : String) :
    (check_connection_filter (filter_changed st x)).1.active_filter = x
    ∧ ((check_connection_filter (filter_changed st x)).2 = true ↔
        st.active_filter ≠ x) := by
  constructor
  · by_cases h : st.active_filter = x <;>
      simp [filter_changed, check_connection_filter, h]
  · by_cases h : st.active_filter = x <;>
      simp [filter_changed, check_connection_filter, h]

/-- C9: the packets forwarded by the classifier are exactly those
accepted by the filter, as a subsequence in original arrival order;
no accepted packet is ever dropped. -/
theorem C9_classifier_exact (accepts : Packet → Bool) (inbound : List Packet) :
    classifier_forward accepts inbound = inbound.filter accepts
    ∧ (classifier_forward accepts inbound).Sublist inbound
    ∧ ∀ p ∈ inbound, accepts p = true →
        p ∈ classifier_forward accepts inbound := by
  have hfilter : ∀ l : List Packet, classifier_forward accepts l = l.filter accepts := by
    intro l
    induction l with
    | nil => rfl
    | cons a t ih =>
      by_cases h : accepts a <;> simp [classifier_forward, h, ih, List.filter_cons]
  refine ⟨hfilter inbound, ?_, ?_⟩
  · rw [hfilter]
    exact List.filter_sublist inbound
  · intro p hp ha
    rw [hfilter]
    exact List.mem_filter.mpr ⟨hp, ha⟩

/-- Witness for C9: a concrete accepted packet is forwarded. -/
theorem C9_classifier_exact_witness :
    sample_packet 1 ∈ classifier_forward (fun _ => true) [sample_packet 1] :=
  (C9_classifier_exact (fun _ => true) [sample_packet 1]).2.2
    (sample_packet 1) (by decide) rfl

/-- C10: sending an operator-composed message assigns the fresh message
number exactly once at composition time and puts the very same packet
value once on the display (processed) queue and once on the transmit
queue, so the displayed and the transmitted message are identical. -/
theorem C10_send_same_packet_both_queues
    (my_callsign active_callsign msg_text : String) (next_no : Nat)
    (q : ChatQueues) :
    ∃ m : MessagePacketOut,
      (action_send_message my_callsign active_callsign msg_text next_no q).1.processed_queue =
        q.processed_queue ++ [m]
      ∧ (action_send_message my_callsign active_callsign msg_text next_no q).1.tx_queue =
        q.tx_queue ++ [m]
      ∧ m.msgNo = some next_no
      ∧ (action_send_message my_callsign active_callsign msg_text next_no q).2 =
        next_no + 1
      ∧ m.from_call = my_callsign
      ∧ m.to_call = active_callsign
      ∧ m.message_text = msg_text :=
  ⟨_, rfl, rfl, rfl, rfl, rfl, rfl, rfl⟩
